import Mathlib

set_option maxHeartbeats 1000000

/-!
Verification of the IMAP IDLE watcher (`src/lib/idle.py`, class `ImapIdleHandler`).

The development shallowly embeds the Python code:

* Python runtime values that flow through the notification pipeline are the
  inductive type `PyVal` (ints, byte strings, lists, tuples, opaque objects).
* The pure response parser `__get_new_message_number` becomes
  `get_new_message_number`.
* The envelope fetcher `__get_message_envelope` becomes `get_message_envelope`,
  parameterised by an environment (`FetchEnv`) describing the outcomes of the
  external IMAP calls; every caught Python exception is an explicit branch.
* The threaded loops `__idle` / `__idle_client` / `__idle_loop` become the
  functions `idle` / `idle_client` / `idle_client_loop` / `idle_loop`,
  consuming a finite trace of externally determined events (connection
  outcomes, timestamps, idle-check outcomes).  A Python exception escaping a
  scope is an explicit `raised` result; `sleep` calls are counted.
-/

/-- Python values occurring in the notification pipeline: numeric tags,
byte-string keywords, lists, tuples and opaque objects (e.g. envelopes). -/
inductive PyVal where
  | int (n : Int)
  | bytes (s : String)
  | list (xs : List PyVal)
  | tuple (xs : List PyVal)
  | obj (id : Nat)

/-- Python equality test `v == b'<s>'` against a byte-string literal: true
exactly when `v` is that byte string (Python `==` between a bytes value and
any other builtin type is `False`). -/
def pyEqBytes (v : PyVal) (s : String) : Bool :=
  match v with
  | .bytes t => t == s
  | _ => false

/-- Python truthiness (`if not x`) for the values of `PyVal`. -/
def pyTruthy : PyVal → Bool
  | .int n => n != 0
  | .bytes s => s != ""
  | .list xs => !xs.isEmpty
  | .tuple xs => !xs.isEmpty
  | .obj _ => true

/-- `type(x) is list` check from the source. -/
def PyVal.isList : PyVal → Bool
  | .list _ => true
  | _ => false

/-- `type(x) is tuple` check from the source. -/
def PyVal.isTuple : PyVal → Bool
  | .tuple _ => true
  | _ => false

/-- The byte string `b'EXISTS'`. -/
def EXISTS : PyVal := .bytes "EXISTS"

/-- The byte string `b'RECENT'`. -/
def RECENT : PyVal := .bytes "RECENT"

/-- Embedding of `ImapIdleHandler.__get_new_message_number` (idle.py lines
239-298).  Strict mode (`ignoreRecentFlag == False`): the input must be a
list with at least two elements whose first two elements are tuples of
length at least two; returns the tag paired with `b'EXISTS'` when the first
two keywords are `EXISTS`/`RECENT` in either order.  Relaxed mode: the input
must be a list whose first element is a tuple of length at least two with
keyword `b'EXISTS'`; returns its tag.  Everything else yields `none`
(Python `None`). -/
def get_new_message_number (responses : PyVal) (ignoreRecentFlag : Bool) :
    Option PyVal :=
  if ignoreRecentFlag = false then
    match responses with
    | .list (r1 :: r2 :: _) =>
      match r1, r2 with
      | .tuple (tag1 :: kw1 :: _), .tuple (tag2 :: kw2 :: _) =>
        if pyEqBytes kw1 "EXISTS" && pyEqBytes kw2 "RECENT" then some tag1
        else if pyEqBytes kw2 "EXISTS" && pyEqBytes kw1 "RECENT" then some tag2
        else none
      | _, _ => none
    | _ => none
  else
    match responses with
    | .list (r1 :: _) =>
      match r1 with
      | .tuple (tag1 :: kw1 :: _) =>
        if pyEqBytes kw1 "EXISTS" then some tag1 else none
      | _ => none
    | _ => none

/-- Embed a list of (tag, keyword) pairs as the Python list of 2-tuples the
server delivers during an IDLE wait. -/
def embedPairs (ps : List (PyVal × PyVal)) : PyVal :=
  .list (ps.map fun p => .tuple [p.1, p.2])

/-! ## Envelope fetcher (`__get_message_envelope`, idle.py lines 300-338) -/

/-- External outcomes of the IMAP calls made by one run of
`__get_message_envelope`: whether the secondary `connect` succeeds, whether
`fetch` raises, the dictionary `fetch` returns when it does not raise
(a partial map from message number to the per-message dictionary, itself a
partial map from data-item keys such as `b'ENVELOPE'` to values), and
whether the final `logout` raises. -/
structure FetchEnv where
  connect_ok : Bool
  fetch_raises : Bool
  fetch_result : PyVal → Option (PyVal → Option PyVal)
  logout_raises : Bool

/-- Observable outcome of `__get_message_envelope`: the returned value
(`none` = Python `None`) and whether `client.logout()` was attempted in the
`finally` block (it is attempted iff `client` is bound, i.e. iff `connect`
succeeded).  The Lean return type is a plain structure, not an exception
monad: in the source every exception of the `try` body is caught by the
`except Exception` handler (returning `None`) and every exception of
`logout` is caught by the bare handler in `finally`. -/
structure FetchResult where
  envelope : Option PyVal
  logout_attempted : Bool

/-- Embedding of `ImapIdleHandler.__get_message_envelope` (idle.py lines
300-338). `client = None`; `connect` (raises → caught, return `None`,
no logout since `client` is still `None`); `fetch` (raises → caught, return
`None`); `message_number not in result` → `None`; `b'ENVELOPE' not in
message_result` → `None`; else return the envelope.  `logout` is attempted
in `finally` whenever `connect` succeeded, its failures swallowed
(`logout_raises` does not influence the result). -/
def get_message_envelope (env : FetchEnv) (message_number : PyVal) :
    FetchResult :=
  if !env.connect_ok then
    { envelope := none, logout_attempted := false }
  else if env.fetch_raises then
    { envelope := none, logout_attempted := true }
  else
    match env.fetch_result message_number with
    | none => { envelope := none, logout_attempted := true }
    | some message_result =>
      match message_result (.bytes "ENVELOPE") with
      | none => { envelope := none, logout_attempted := true }
      | some e => { envelope := some e, logout_attempted := true }

/-! ## Watcher state machine (`__idle`, `__idle_client`, `__idle_loop`) -/

/-- Watcher configuration: the four class-level tunables of
`ImapIdleHandler` plus the `ignoreRecentFlag` constructor argument. -/
structure Config where
  MAX_IMAP_ERROR_COUNT : Nat
  SECONDS_TO_WAIT_AFTER_ERROR : Nat
  SECONDS_TO_RECONNECT_AFTER : Nat
  SECONDS_TO_WAIT_FOR_IDLE_RESPONSE : Nat
  ignoreRecentFlag : Bool

/-- Mutable runtime state of the watcher thread: `self.__thread_stopped`,
`self.__connected_at` (Python `None` before the first IDLE entry) and
`self.__imap_error_count`. -/
structure WState where
  thread_stopped : Bool
  connected_at : Option Int
  imap_error_count : Nat
deriving DecidableEq, Repr

/-- Initial runtime state set up in `__init__`. -/
def initialState : WState :=
  { thread_stopped := false, connected_at := none, imap_error_count := 0 }

/-- Outcome of one `client.idle_check(timeout=...)` call inside
`__idle_loop`: it raises a generic exception, raises `KeyboardInterrupt`,
or returns a value (possibly an empty list). -/
inductive IdleCheckOutcome where
  | raiseExc
  | keyboard
  | ok (responses : PyVal)

/-- External outcomes of one run of `__idle_loop`: the `idle_check` result,
the environment of the (at most one) envelope fetch, and whether the
callback `trigger_new_message_command` raises. -/
structure LoopEvent where
  check : IdleCheckOutcome
  fetchEnv : FetchEnv
  callback_raises : Bool

/-- How one run of `__idle_loop` ends as seen by its caller. -/
inductive LoopResult where
  | ok
  | keyboard
  | raised
deriving DecidableEq, Repr

/-- Observables of one `__idle_loop` run: how it ended, whether the
envelope fetch was performed, and whether the callback was invoked. -/
structure LoopOut where
  result : LoopResult
  fetch_attempted : Bool
  callback_attempted : Bool
deriving DecidableEq, Repr

/-- Embedding of `ImapIdleHandler.__idle_loop` (idle.py lines 212-237).
`idle_check`; `if not responses: return`; parse; `if not message_nr:
return` (Python truthiness, so tag `0` is dropped); fetch; `if not
envelope: return`; invoke the callback, catching any exception it raises
(`except Exception` at lines 236-237). An exception from `idle_check`
propagates to `__idle_client` (`raised`). -/
def idle_loop (cfg : Config) (ev : LoopEvent) : LoopOut :=
  match ev.check with
  | .raiseExc => { result := .raised, fetch_attempted := false, callback_attempted := false }
  | .keyboard => { result := .keyboard, fetch_attempted := false, callback_attempted := false }
  | .ok responses =>
    if !pyTruthy responses then
      { result := .ok, fetch_attempted := false, callback_attempted := false }
    else
      match get_new_message_number responses cfg.ignoreRecentFlag with
      | none => { result := .ok, fetch_attempted := false, callback_attempted := false }
      | some message_nr =>
        if !pyTruthy message_nr then
          { result := .ok, fetch_attempted := false, callback_attempted := false }
        else
          match (get_message_envelope ev.fetchEnv message_nr).envelope with
          | none => { result := .ok, fetch_attempted := true, callback_attempted := false }
          | some envelope =>
            if !pyTruthy envelope then
              { result := .ok, fetch_attempted := true, callback_attempted := false }
            else
              { result := .ok, fetch_attempted := true, callback_attempted := true }

/-- One iteration of the inner `while True` loop of `__idle_client`: the
wall-clock time `int(time())` read at the top of the iteration and the
outcomes of the external calls made by `__idle_loop`. -/
structure InnerEvent where
  now : Int
  loopEvent : LoopEvent

/-- External outcomes of one `__idle_client` call: the timestamp recorded
by `self.__connected_at = int(time())`, whether `client.idle()` raises, and
the trace of inner-loop iterations. -/
structure ClientEvent where
  idle_time : Int
  idle_raises : Bool
  inner : List InnerEvent

/-- How `__idle_client` ends: a normal return (`ok`), an exception
propagated to `__idle` (`raised`: either `IDLE mode failed` or `IDLE check
failed`), or the finite event trace ran out while the loop was still
running (`outOfEvents`, a model artifact meaning the worker is still
going). -/
inductive ClientResult where
  | ok (s : WState)
  | raised (s : WState)
  | outOfEvents (s : WState)
deriving DecidableEq, Repr

/-- State carried by any `ClientResult`. -/
def ClientResult.state : ClientResult → WState
  | .ok s => s
  | .raised s => s
  | .outOfEvents s => s

/-- The inner `while True` loop of `__idle_client` (idle.py lines 184-203).
Per iteration: stop-flag check (`break`); forced-reconnection check
(`break` when `SECONDS_TO_RECONNECT_AFTER > 0` and the session age exceeds
it); then `__idle_loop` — on normal return the error counter is reset to 0
(line 197); `KeyboardInterrupt` sets the stop flag and breaks;
any other exception is re-raised as `IDLE check failed`. -/
def idle_client_loop (cfg : Config) (s : WState) :
    List InnerEvent → ClientResult
  | [] => .outOfEvents s
  | e :: rest =>
    if s.thread_stopped then .ok s
    else if 0 < cfg.SECONDS_TO_RECONNECT_AFTER ∧
        (cfg.SECONDS_TO_RECONNECT_AFTER : Int) <
          e.now - (s.connected_at.getD 0) then .ok s
    else
      match (idle_loop cfg e.loopEvent).result with
      | .ok => idle_client_loop cfg { s with imap_error_count := 0 } rest
      | .keyboard => .ok { s with thread_stopped := true }
      | .raised => .raised s

/-- Embedding of `ImapIdleHandler.__idle_client` (idle.py lines 161-210).
Early return when the stop flag is already set; record
`self.__connected_at = int(time())`; `client.idle()` failure is re-raised
as `IDLE mode failed`; then the inner loop.  The `finally` block
(`client.idle_done()`, exceptions swallowed) does not touch the state. -/
def idle_client (cfg : Config) (s : WState) (ev : ClientEvent) :
    ClientResult :=
  if s.thread_stopped then .ok s
  else
    let s1 := { s with connected_at := some ev.idle_time }
    if ev.idle_raises then .raised s1
    else idle_client_loop cfg s1 ev.inner

/-- One iteration of the outer `while True` loop of `__idle`: whether
`self.__connector.connect(...)` succeeds, and (when it does) the external
outcomes of the `__idle_client` call.  The trailing `client.logout()` in
the `finally` block swallows its own errors and touches no state, so it
needs no event data. -/
structure OuterEvent where
  connect_ok : Bool
  client : ClientEvent

/-- How the whole `__idle` thread function ends: `stopped` (stop flag
observed at the loop top), `errorExit` (`return` after the error budget is
exceeded), or `outOfEvents` (finite trace exhausted, worker still
running). -/
inductive IdleResult where
  | stopped (s : WState)
  | errorExit (s : WState)
  | outOfEvents (s : WState)
deriving DecidableEq, Repr

/-- State carried by any `IdleResult`. -/
def IdleResult.state : IdleResult → WState
  | .stopped s => s
  | .errorExit s => s
  | .outOfEvents s => s

/-- The duplicated error-handling block of `__idle` (idle.py lines 122-127
and 140-145): only when `MAX_IMAP_ERROR_COUNT > 0` is the error counter
incremented and compared against the budget.  Returns the updated state
and whether the thread leaves (`return`). -/
def handleError (cfg : Config) (s : WState) : WState × Bool :=
  if 0 < cfg.MAX_IMAP_ERROR_COUNT then
    let s' := { s with imap_error_count := s.imap_error_count + 1 }
    (s', cfg.MAX_IMAP_ERROR_COUNT < s'.imap_error_count)
  else (s, false)

/-- The backoff `sleep(SECONDS_TO_WAIT_AFTER_ERROR)` (idle.py lines 129-130
and 147-148), performed only when the tunable is positive; the second
component of the run result counts performed sleeps. -/
def addSleep (cfg : Config) (r : IdleResult × Nat) : IdleResult × Nat :=
  if 0 < cfg.SECONDS_TO_WAIT_AFTER_ERROR then (r.1, r.2 + 1) else r

/-- Embedding of the thread main function `ImapIdleHandler.__idle`
(idle.py lines 101-159), consuming one `OuterEvent` per iteration of the
outer `while True` loop.  Loop top: stop flag → `break`; `connect` failure
→ error handling (increment under positive budget, possible `return`,
backoff sleep) and `continue`; otherwise `__idle_client`, whose normal
return continues the loop and whose exception goes through the same error
handling.  Returns the final result and the number of backoff sleeps. -/
def idle (cfg : Config) : WState → List OuterEvent → IdleResult × Nat
  | s, [] =>
    if s.thread_stopped then (.stopped s, 0) else (.outOfEvents s, 0)
  | s, e :: rest =>
    if s.thread_stopped then (.stopped s, 0)
    else if e.connect_ok then
      match idle_client cfg s e.client with
      | .ok s' => idle cfg s' rest
      | .raised s' =>
        let p := handleError cfg s'
        if p.2 then (.errorExit p.1, 0)
        else addSleep cfg (idle cfg p.1 rest)
      | .outOfEvents s' => (.outOfEvents s', 0)
    else
      let p := handleError cfg s
      if p.2 then (.errorExit p.1, 0)
      else addSleep cfg (idle cfg p.1 rest)

/-! ## Concrete configurations and events used in the theorems -/

/-- The class-level defaults of `ImapIdleHandler` (`MAX_IMAP_ERROR_COUNT =
0`, `SECONDS_TO_WAIT_AFTER_ERROR = 60`, `SECONDS_TO_RECONNECT_AFTER = 600`,
`SECONDS_TO_WAIT_FOR_IDLE_RESPONSE = 15`) with the default
`ignoreRecentFlag = False`. -/
def defaultConfig : Config :=
  { MAX_IMAP_ERROR_COUNT := 0, SECONDS_TO_WAIT_AFTER_ERROR := 60,
    SECONDS_TO_RECONNECT_AFTER := 600, SECONDS_TO_WAIT_FOR_IDLE_RESPONSE := 15,
    ignoreRecentFlag := false }

/-- The defaults with relaxed notification matching. -/
def relaxedConfig : Config := { defaultConfig with ignoreRecentFlag := true }

/-- The defaults with an error budget of `n`. -/
def budgetConfig (n : Nat) : Config :=
  { defaultConfig with MAX_IMAP_ERROR_COUNT := n }

/-- An outer-loop iteration in which `connect` raises. -/
def connectFailEvent : OuterEvent :=
  { connect_ok := false,
    client := { idle_time := 0, idle_raises := false, inner := [] } }

/-- An outer-loop iteration in which `connect` succeeds and `client.idle()`
raises (re-raised by `__idle_client` as `IDLE mode failed`). -/
def idleFailEvent : OuterEvent :=
  { connect_ok := true,
    client := { idle_time := 0, idle_raises := true, inner := [] } }

/-- A fetch environment whose `fetch` call raises. -/
def failingFetchEnv : FetchEnv :=
  { connect_ok := true, fetch_raises := true, fetch_result := fun _ => none,
    logout_raises := false }

/-- An outer-loop iteration that fails as a connection-establishment
failure or as an IDLE-cycle failure, with no successful check cycle before
the failure: `connect` raises, or `client.idle()` raises, or the very
first `idle_check` of the session raises (at a moment when the
forced-reconnection break does not fire first). -/
def failsCycle (cfg : Config) (e : OuterEvent) : Prop :=
  e.connect_ok = false ∨ e.client.idle_raises = true ∨
  (∃ ie irest, e.client.inner = ie :: irest ∧
    ie.loopEvent.check = .raiseExc ∧
    ¬(0 < cfg.SECONDS_TO_RECONNECT_AFTER ∧
      (cfg.SECONDS_TO_RECONNECT_AFTER : Int) < ie.now - e.client.idle_time))

/-- A runtime state with five accumulated errors and a live session
timestamp, used to witness the counter reset. -/
def stateWithErrors : WState :=
  { thread_stopped := false, connected_at := some 0, imap_error_count := 5 }

/-- An inner-loop iteration at time 0 in which `idle_check` returns the
empty list. -/
def quietInnerEvent : InnerEvent :=
  { now := 0,
    loopEvent :=
      { check := .ok (.list []), fetchEnv := failingFetchEnv,
        callback_raises := false } }

/-- A per-message dictionary carrying envelope data under `b'ENVELOPE'`. -/
def envelopeDict : PyVal → Option PyVal := fun q =>
  match q with
  | .bytes s => if s = "ENVELOPE" then some (.obj 1) else none
  | _ => none

/-- A fetch environment in which message 42 has an envelope. -/
def okFetchEnv : FetchEnv :=
  { connect_ok := true, fetch_raises := false,
    fetch_result := fun k =>
      match k with
      | .int n => if n = 42 then some envelopeDict else none
      | _ => none,
    logout_raises := false }

/-- An inner-loop iteration delivering a qualifying strict-mode
notification for message 42, with a succeeding fetch and a raising
callback. -/
def dispatchFailEvent : InnerEvent :=
  { now := 0,
    loopEvent :=
      { check := .ok (embedPairs [(.int 42, EXISTS), (.int 1, RECENT)]),
        fetchEnv := okFetchEnv, callback_raises := true } }

/-- A quiet inner-loop iteration observed at time 601, past the default
600-second reconnection threshold of a session started at time 0. -/
def reconInnerEvent : InnerEvent :=
  { now := 601, loopEvent := quietInnerEvent.loopEvent }

/-- An outer-loop iteration whose session (started at time 0) is observed
at time 601, triggering the forced reconnection. -/
def reconOuterEvent : OuterEvent :=
  { connect_ok := true,
    client :=
      { idle_time := 0, idle_raises := false,
        inner := [reconInnerEvent] } }

/-! ## Helper lemmas -/

lemma idle_loop_result_ok (cfg : Config) (ev : LoopEvent) (r : PyVal)
    (h : ev.check = .ok r) : (idle_loop cfg ev).result = .ok := by
  obtain ⟨c, fe, cb⟩ := ev
  dsimp only at h
  subst h
  unfold idle_loop
  dsimp only
  split
  · rfl
  · split
    · rfl
    · split
      · rfl
      · split
        · rfl
        · split <;> rfl

lemma idle_loop_result_raised (cfg : Config) (ev : LoopEvent)
    (h : ev.check = .raiseExc) : (idle_loop cfg ev).result = .raised := by
  obtain ⟨c, fe, cb⟩ := ev
  dsimp only at h
  subst h
  rfl

lemma addSleep_fst (cfg : Config) (r : IdleResult × Nat) :
    (addSleep cfg r).1 = r.1 := by
  unfold addSleep
  split <;> rfl

lemma idle_nil_state (cfg : Config) (s : WState) :
    ((idle cfg s []).1).state = s := by
  unfold idle
  split <;> rfl

lemma idle_client_raised_of_fail (cfg : Config) (s : WState) (e : OuterEvent)
    (hstop : s.thread_stopped = false) (hc : e.connect_ok = true)
    (hf : failsCycle cfg e) :
    idle_client cfg s e.client =
      .raised { s with connected_at := some e.client.idle_time } := by
  rcases hf with hf | hf | hf
  · rw [hc] at hf
    exact absurd hf (by simp)
  · simp only [idle_client, hstop, hf, Bool.false_eq_true, if_false, if_true]
  · by_cases hr : e.client.idle_raises
    · simp only [idle_client, hstop, hr, Bool.false_eq_true, if_false, if_true]
    · obtain ⟨ie, irest, hinner, hcr, hnage⟩ := hf
      simp only [idle_client, hstop, Bool.false_eq_true, if_false,
        eq_self_iff_true, hr, hinner, idle_client_loop, Option.getD_some]
      rw [if_neg hnage]
      simp only [idle_loop_result_raised cfg ie.loopEvent hcr]

lemma fails_step (cfg : Config) (s : WState) (e : OuterEvent)
    (rest : List OuterEvent) (hstop : s.thread_stopped = false)
    (hf : failsCycle cfg e) :
    ∃ sb : WState, sb.thread_stopped = false ∧
      sb.imap_error_count = s.imap_error_count ∧
      idle cfg s (e :: rest) =
        (let p := handleError cfg sb
         if p.2 then (.errorExit p.1, 0)
         else addSleep cfg (idle cfg p.1 rest)) := by
  by_cases hc : e.connect_ok
  · refine ⟨{ s with connected_at := some e.client.idle_time }, hstop, rfl, ?_⟩
    simp only [idle, hstop, hc, Bool.false_eq_true, if_false, if_true,
      idle_client_raised_of_fail cfg s e hstop hc hf]
  · refine ⟨s, hstop, rfl, ?_⟩
    simp only [idle, hstop, hc, Bool.false_eq_true, if_false]

lemma all_fail_run (cfg : Config) (hN : 0 < cfg.MAX_IMAP_ERROR_COUNT) :
    ∀ (evs : List OuterEvent) (s : WState),
      s.thread_stopped = false →
      s.imap_error_count ≤ cfg.MAX_IMAP_ERROR_COUNT →
      (∀ e ∈ evs, failsCycle cfg e) →
      (s.imap_error_count + evs.length ≤ cfg.MAX_IMAP_ERROR_COUNT →
        ∃ s', (idle cfg s evs).1 = .outOfEvents s' ∧
          s'.thread_stopped = false ∧
          s'.imap_error_count = s.imap_error_count + evs.length) ∧
      (cfg.MAX_IMAP_ERROR_COUNT < s.imap_error_count + evs.length →
        ∃ s', (idle cfg s evs).1 = .errorExit s' ∧
          s'.imap_error_count = cfg.MAX_IMAP_ERROR_COUNT + 1) := by
  intro evs
  induction evs with
  | nil =>
    intro s hstop hle _hall
    constructor
    · intro _
      exact ⟨s, by simp [idle, hstop], hstop, by simp⟩
    · intro h
      simp only [List.length_nil, Nat.add_zero] at h
      omega
  | cons e rest ih =>
    intro s hstop hle hall
    obtain ⟨sb, hb1, hb2, hb3⟩ :=
      fails_step cfg s e rest hstop (hall e (by simp))
    rw [hb3]
    have hp : handleError cfg sb =
        ({ sb with imap_error_count := sb.imap_error_count + 1 },
          decide (cfg.MAX_IMAP_ERROR_COUNT < sb.imap_error_count + 1)) := by
      simp [handleError, hN]
    by_cases hover : cfg.MAX_IMAP_ERROR_COUNT < s.imap_error_count + 1
    · constructor
      · intro hcontra
        simp only [List.length_cons] at hcontra
        omega
      · intro _
        refine ⟨{ sb with imap_error_count := s.imap_error_count + 1 },
          ?_, by dsimp only; omega⟩
        simp only [hp, hb2, decide_eq_true_eq]
        rw [if_pos hover]
    · have hrec := ih { sb with imap_error_count := s.imap_error_count + 1 }
        hb1 (by dsimp only; omega) (fun x hx => hall x (by simp [hx]))
      constructor
      · intro hlen
        simp only [List.length_cons] at hlen
        simp only [hp, hb2, decide_eq_true_eq]
        rw [if_neg hover, addSleep_fst]
        obtain ⟨s', hs1, hs2, hs3⟩ := hrec.1 (by dsimp only; omega)
        refine ⟨s', hs1, hs2, ?_⟩
        simp only [List.length_cons]
        dsimp only at hs3
        omega
      · intro hlen
        simp only [List.length_cons] at hlen
        simp only [hp, hb2, decide_eq_true_eq]
        rw [if_neg hover, addSleep_fst]
        exact hrec.2 (by dsimp only; omega)

lemma all_fail_run_zero (cfg : Config)
    (h0 : cfg.MAX_IMAP_ERROR_COUNT = 0) :
    ∀ (evs : List OuterEvent) (s : WState),
      s.thread_stopped = false →
      (∀ e ∈ evs, failsCycle cfg e) →
      ∃ s', (idle cfg s evs).1 = .outOfEvents s' ∧
        s'.thread_stopped = false ∧
        s'.imap_error_count = s.imap_error_count := by
  intro evs
  induction evs with
  | nil =>
    intro s hstop _hall
    exact ⟨s, by simp [idle, hstop], hstop, rfl⟩
  | cons e rest ih =>
    intro s hstop hall
    obtain ⟨sb, hb1, hb2, hb3⟩ :=
      fails_step cfg s e rest hstop (hall e (by simp))
    rw [hb3]
    have hp : handleError cfg sb = (sb, false) := by
      simp [handleError, h0]
    simp only [hp]
    rw [if_neg (by simp), addSleep_fst]
    obtain ⟨s', hs1, hs2, hs3⟩ := ih sb hb1 (fun x hx => hall x (by simp [hx]))
    exact ⟨s', hs1, hs2, by omega⟩

lemma idle_client_loop_count_le (cfg : Config) :
    ∀ (evs : List InnerEvent) (s : WState),
      ((idle_client_loop cfg s evs).state).imap_error_count ≤
        s.imap_error_count := by
  intro evs
  induction evs with
  | nil => intro s; exact Nat.le_refl _
  | cons e rest ih =>
    intro s
    unfold idle_client_loop
    split
    · exact Nat.le_refl _
    · split
      · exact Nat.le_refl _
      · split
        · exact le_trans (ih _) (Nat.zero_le _)
        · exact Nat.le_refl _
        · exact Nat.le_refl _

lemma pyEqBytes_eq_true_iff (v : PyVal) (s : String) :
    pyEqBytes v s = true ↔ v = .bytes s := by
  cases v <;> simp [pyEqBytes]

lemma pyEqBytes_eq_false_iff (v : PyVal) (s : String) :
    pyEqBytes v s = false ↔ v ≠ .bytes s := by
  cases v <;> simp [pyEqBytes]

/-! ## Claims about the response parser -/

/-- C2: in strict mode (`ignoreRecentFlag = False`) the parser returns a
value exactly when the notification list has at least two pairs whose
first two keywords are `EXISTS` and `RECENT` in either order, and the
returned value is the tag paired with `EXISTS`; `[(275, EXISTS),
(1, RECENT)]` and `[(1, RECENT), (275, EXISTS)]` both yield `275`, while
`[(275, EXISTS)]` alone and the empty list yield nothing. -/
theorem C2_strict_mode :
    (∀ (a b : PyVal × PyVal) (rest : List (PyVal × PyVal)) (v : PyVal),
      get_new_message_number (embedPairs (a :: b :: rest)) false = some v ↔
        (a.2 = EXISTS ∧ b.2 = RECENT ∧ v = a.1) ∨
        (b.2 = EXISTS ∧ a.2 = RECENT ∧ v = b.1)) ∧
    get_new_message_number (embedPairs []) false = none ∧
    (∀ p : PyVal × PyVal,
      get_new_message_number (embedPairs [p]) false = none) ∧
    get_new_message_number
      (embedPairs [(.int 275, EXISTS), (.int 1, RECENT)]) false = some (.int 275) ∧
    get_new_message_number
      (embedPairs [(.int 1, RECENT), (.int 275, EXISTS)]) false = some (.int 275) ∧
    get_new_message_number (embedPairs [(.int 275, EXISTS)]) false = none ∧
    get_new_message_number (embedPairs []) false = none := by
  refine ⟨?_, rfl, ?_, rfl, rfl, rfl, rfl⟩
  · rintro ⟨ta, ka⟩ ⟨tb, kb⟩ rest v
    simp only [embedPairs, List.map_cons, get_new_message_number, if_pos rfl]
    cases h1 : pyEqBytes ka "EXISTS" <;> cases h2 : pyEqBytes kb "RECENT" <;>
      cases h3 : pyEqBytes kb "EXISTS" <;> cases h4 : pyEqBytes ka "RECENT" <;>
      simp only [pyEqBytes_eq_true_iff, pyEqBytes_eq_false_iff] at h1 h2 h3 h4 <;>
      simp_all [EXISTS, RECENT] <;> try tauto
  · rintro ⟨ta, ka⟩
    simp [embedPairs, get_new_message_number]

/-- C3: in relaxed mode (`ignoreRecentFlag = True`) the parser returns the
first pair's tag exactly when the first pair's keyword is `EXISTS`;
`[(275, EXISTS)]` yields `275`, `[(1, RECENT)]` alone and the empty list
yield nothing, and malformed shapes (non-list input, non-tuple first
element, first tuple shorter than two) yield nothing. -/
theorem C3_relaxed_mode :
    (∀ (a : PyVal × PyVal) (rest : List (PyVal × PyVal)) (v : PyVal),
      get_new_message_number (embedPairs (a :: rest)) true = some v ↔
        (a.2 = EXISTS ∧ v = a.1)) ∧
    (∀ v : PyVal, v.isList = false → get_new_message_number v true = none) ∧
    (∀ (x : PyVal) (rest : List PyVal), x.isTuple = false →
      get_new_message_number (.list (x :: rest)) true = none) ∧
    (∀ rest : List PyVal,
      get_new_message_number (.list (.tuple [] :: rest)) true = none) ∧
    (∀ (y : PyVal) (rest : List PyVal),
      get_new_message_number (.list (.tuple [y] :: rest)) true = none) ∧
    get_new_message_number (embedPairs [(.int 275, EXISTS)]) true = some (.int 275) ∧
    get_new_message_number (embedPairs [(.int 1, RECENT)]) true = none ∧
    get_new_message_number (embedPairs []) true = none := by
  refine ⟨?_, ?_, ?_, fun rest => rfl, fun y rest => rfl, rfl, rfl, rfl⟩
  · rintro ⟨ta, ka⟩ rest v
    simp only [embedPairs, List.map_cons, get_new_message_number]
    cases h1 : pyEqBytes ka "EXISTS" <;>
      simp only [pyEqBytes_eq_true_iff, pyEqBytes_eq_false_iff] at h1 <;>
      simp_all [EXISTS] <;> try tauto
  · intro v hv
    cases v <;> simp_all [PyVal.isList, get_new_message_number]
  · intro x rest hx
    cases x <;> simp_all [PyVal.isTuple, get_new_message_number]

theorem C3_relaxed_mode_witness :
    get_new_message_number (.int 7) true = none ∧
    get_new_message_number (.list [.int 3]) true = none := by
  exact ⟨C3_relaxed_mode.2.1 (.int 7) rfl,
    C3_relaxed_mode.2.2.1 (.int 3) [] rfl⟩

/-- C9: the response parser is a pure, deterministic, total function: it is
a Lean `def` returning `Option PyVal` (no exception type, no state, no
I/O), defined on every input value and mode, and two evaluations at equal
inputs and modes give equal results. -/
theorem C9_parser_deterministic :
    ∀ (r : PyVal) (m : Bool) (r' : PyVal) (m' : Bool), r' = r → m' = m →
      get_new_message_number r' m' = get_new_message_number r m := by
  intro r m r' m' h1 h2
  rw [h1, h2]

theorem C9_parser_deterministic_witness :
    get_new_message_number (embedPairs [(.int 275, EXISTS)]) true =
      get_new_message_number (embedPairs [(.int 275, EXISTS)]) true :=
  C9_parser_deterministic (embedPairs [(.int 275, EXISTS)]) true
    (embedPairs [(.int 275, EXISTS)]) true rfl rfl

/-- C10: on the relaxed-mode input `[(0, EXISTS)]` the parser returns the
tag `0`, but because `__idle_loop` tests the parsed number for Python
truthiness (`if not message_nr`), the check cycle treats it as no
qualifying message: no envelope fetch is performed and no callback is
invoked, for every fetch environment and callback behaviour. -/
theorem C10_zero_tag_dropped :
    get_new_message_number (embedPairs [(.int 0, EXISTS)]) true = some (.int 0) ∧
    ∀ (fe : FetchEnv) (cb : Bool),
      idle_loop relaxedConfig
        { check := .ok (embedPairs [(.int 0, EXISTS)]),
          fetchEnv := fe, callback_raises := cb } =
        { result := .ok, fetch_attempted := false, callback_attempted := false } :=
  ⟨rfl, fun _ _ => rfl⟩

/-! ## Claims about the watcher state machine -/

/-- C1 counterexample: the claim "terminates after exactly N consecutive
failures" is false at N = 1: after exactly one consecutive connection
failure with budget 1 the worker has not terminated (it counts the error
and keeps running); it terminates only on the second failure. -/
theorem C1_counterexample :
    (idle (budgetConfig 1) initialState [connectFailEvent]).1 =
      IdleResult.outOfEvents
        { thread_stopped := false, connected_at := none,
          imap_error_count := 1 } ∧
    (idle (budgetConfig 1) initialState
        [connectFailEvent, connectFailEvent]).1 =
      IdleResult.errorExit
        { thread_stopped := false, connected_at := none,
          imap_error_count := 2 } := by
  decide

/-- C1 (amended): with a configured error budget N > 0 the worker is still
running after any N consecutive connection/IDLE-cycle failures and
terminates after N + 1 of them (the code leaves only when the counter
exceeds `MAX_IMAP_ERROR_COUNT`), exiting with the counter at N + 1; with
budget 0 the worker never self-terminates after any finite number of
consecutive failures. -/
theorem C1_error_budget_amended :
    (∀ (cfg : Config) (evs : List OuterEvent),
      0 < cfg.MAX_IMAP_ERROR_COUNT →
      (∀ e ∈ evs, failsCycle cfg e) →
      evs.length ≤ cfg.MAX_IMAP_ERROR_COUNT →
      ∃ s', (idle cfg initialState evs).1 = .outOfEvents s' ∧
        s'.imap_error_count = evs.length) ∧
    (∀ (cfg : Config) (evs : List OuterEvent),
      0 < cfg.MAX_IMAP_ERROR_COUNT →
      (∀ e ∈ evs, failsCycle cfg e) →
      cfg.MAX_IMAP_ERROR_COUNT < evs.length →
      ∃ s', (idle cfg initialState evs).1 = .errorExit s' ∧
        s'.imap_error_count = cfg.MAX_IMAP_ERROR_COUNT + 1) ∧
    (∀ (cfg : Config) (evs : List OuterEvent),
      cfg.MAX_IMAP_ERROR_COUNT = 0 →
      (∀ e ∈ evs, failsCycle cfg e) →
      ∃ s', (idle cfg initialState evs).1 = .outOfEvents s' ∧
        s'.imap_error_count = 0) := by
  refine ⟨?_, ?_, ?_⟩
  · intro cfg evs hN hall hlen
    obtain ⟨s', h1, _h2, h3⟩ :=
      ((all_fail_run cfg hN evs initialState rfl (Nat.zero_le _) hall).1
        (by simpa [initialState] using hlen))
    exact ⟨s', h1, by simpa [initialState] using h3⟩
  · intro cfg evs hN hall hlen
    exact (all_fail_run cfg hN evs initialState rfl (Nat.zero_le _) hall).2
      (by simpa [initialState] using hlen)
  · intro cfg evs h0 hall
    obtain ⟨s', h1, _h2, h3⟩ :=
      all_fail_run_zero cfg h0 evs initialState rfl hall
    exact ⟨s', h1, by simpa [initialState] using h3⟩

theorem C1_error_budget_amended_witness :
    (∃ s', (idle (budgetConfig 2) initialState
        [connectFailEvent, idleFailEvent]).1 = .outOfEvents s' ∧
      s'.imap_error_count = [connectFailEvent, idleFailEvent].length) ∧
    (∃ s', (idle (budgetConfig 2) initialState
        [connectFailEvent, connectFailEvent, connectFailEvent]).1 =
          .errorExit s' ∧
      s'.imap_error_count = (budgetConfig 2).MAX_IMAP_ERROR_COUNT + 1) ∧
    (∃ s', (idle (budgetConfig 0) initialState
        [connectFailEvent, idleFailEvent, connectFailEvent]).1 =
          .outOfEvents s' ∧
      s'.imap_error_count = 0) := by
  have hcf : failsCycle (budgetConfig 2) connectFailEvent := Or.inl rfl
  have hif : failsCycle (budgetConfig 2) idleFailEvent := Or.inr (Or.inl rfl)
  have hcf0 : failsCycle (budgetConfig 0) connectFailEvent := Or.inl rfl
  have hif0 : failsCycle (budgetConfig 0) idleFailEvent := Or.inr (Or.inl rfl)
  refine ⟨?_, ?_, ?_⟩
  · refine C1_error_budget_amended.1 (budgetConfig 2) _ (by decide) ?_
      (by decide)
    intro x hx
    simp only [List.mem_cons, List.not_mem_nil, or_false] at hx
    rcases hx with rfl | rfl
    · exact hcf
    · exact hif
  · refine C1_error_budget_amended.2.1 (budgetConfig 2) _ (by decide) ?_
      (by decide)
    intro x hx
    simp only [List.mem_cons, List.not_mem_nil, or_false] at hx
    rcases hx with rfl | rfl | rfl
    · exact hcf
    · exact hcf
    · exact hcf
  · refine C1_error_budget_amended.2.2 (budgetConfig 0) _ rfl ?_
    intro x hx
    simp only [List.mem_cons, List.not_mem_nil, or_false] at hx
    rcases hx with rfl | rfl | rfl
    · exact hcf0
    · exact hif0
    · exact hcf0

/-- C4 counterexample: the claim "every failure increments the counter
regardless of whether a positive error budget is configured" is false with
budget 0: after one connection failure the counter is still 0, not 1
(the increment at idle.py lines 123-124 is guarded by
`MAX_IMAP_ERROR_COUNT > 0`). -/
theorem C4_counterexample :
    ((idle (budgetConfig 0) initialState
        [connectFailEvent]).1).state.imap_error_count = 0 ∧
    ¬((idle (budgetConfig 0) initialState
        [connectFailEvent]).1).state.imap_error_count = 1 := by
  decide

/-- C4 (amended): when a positive error budget is configured, every
connection-establishment failure and every IDLE-cycle failure increments
the consecutive-error counter by exactly one; with budget 0 the counter is
left unchanged; and the counter is never incremented for any other reason
— across a whole `__idle_client` session (fetch failures, dispatch
failures, teardown, forced reconnection, quiet cycles) the counter never
increases. -/
theorem C4_counter_increment_amended :
    (∀ (cfg : Config) (s : WState) (e : OuterEvent),
      s.thread_stopped = false → failsCycle cfg e →
      ((idle cfg s [e]).1).state.imap_error_count =
        if 0 < cfg.MAX_IMAP_ERROR_COUNT then s.imap_error_count + 1
        else s.imap_error_count) ∧
    (∀ (cfg : Config) (s : WState) (ev : ClientEvent),
      (idle_client cfg s ev).state.imap_error_count ≤
        s.imap_error_count) := by
  constructor
  · intro cfg s e hstop hf
    obtain ⟨sb, hb1, hb2, hb3⟩ := fails_step cfg s e [] hstop hf
    rw [hb3]
    by_cases hm : 0 < cfg.MAX_IMAP_ERROR_COUNT
    · have hp : handleError cfg sb =
          ({ sb with imap_error_count := sb.imap_error_count + 1 },
            decide (cfg.MAX_IMAP_ERROR_COUNT < sb.imap_error_count + 1)) := by
        simp [handleError, hm]
      simp only [hp, hb2, decide_eq_true_eq]
      rw [if_pos hm]
      by_cases hov : cfg.MAX_IMAP_ERROR_COUNT < s.imap_error_count + 1
      · rw [if_pos hov]
        rfl
      · rw [if_neg hov, addSleep_fst, idle_nil_state]
    · have hp : handleError cfg sb = (sb, false) := by
        simp [handleError, hm]
      simp only [hp]
      rw [if_neg (by simp), addSleep_fst, idle_nil_state, if_neg hm]
      exact hb2
  · intro cfg s ev
    unfold idle_client
    split
    · exact Nat.le_refl _
    · split
      · exact Nat.le_refl _
      · exact idle_client_loop_count_le cfg ev.inner _

theorem C4_counter_increment_amended_witness :
    ((idle (budgetConfig 2) initialState
        [connectFailEvent]).1).state.imap_error_count =
      if 0 < (budgetConfig 2).MAX_IMAP_ERROR_COUNT then
        initialState.imap_error_count + 1
      else initialState.imap_error_count :=
  C4_counter_increment_amended.1 (budgetConfig 2) initialState
    connectFailEvent rfl (Or.inl rfl)

/-- C5: every inner-loop iteration whose wait-and-check (`__idle_loop`)
completes without raising resets the consecutive-error counter to zero
immediately afterwards — for every configuration, every prior state of the
loop (any prior error count), and every fetch/dispatch outcome inside the
cycle. -/
theorem C5_counter_reset :
    ∀ (cfg : Config) (s : WState) (e : InnerEvent) (rest : List InnerEvent)
      (r : PyVal),
      s.thread_stopped = false →
      ¬(0 < cfg.SECONDS_TO_RECONNECT_AFTER ∧
        (cfg.SECONDS_TO_RECONNECT_AFTER : Int) <
          e.now - (s.connected_at.getD 0)) →
      e.loopEvent.check = .ok r →
      idle_client_loop cfg s (e :: rest) =
        idle_client_loop cfg { s with imap_error_count := 0 } rest := by
  intro cfg s e rest r hstop hage hcheck
  have hok := idle_loop_result_ok cfg e.loopEvent r hcheck
  simp [idle_client_loop, hstop, hage, hok]

theorem C5_counter_reset_witness :
    idle_client_loop defaultConfig stateWithErrors [quietInnerEvent] =
      idle_client_loop defaultConfig
        { stateWithErrors with imap_error_count := 0 } [] :=
  C5_counter_reset defaultConfig stateWithErrors quietInnerEvent []
    (.list []) rfl (by decide) rfl

/-- C6: every failure raised while fetching an envelope on the secondary
session is caught and reported as no result rather than propagated: when
the secondary `connect` succeeded, `logout` is attempted on every outcome;
a raising `fetch` yields `None`; a raising `logout` is swallowed (the
result does not depend on it); and at the IDLE-loop level a check cycle
containing any fetch outcome still completes normally (so fetch failures
are never counted against the error budget and never abort the loop). -/
theorem C6_fetch_contained :
    (∀ (env : FetchEnv) (nr : PyVal), env.connect_ok = true →
      (get_message_envelope env nr).logout_attempted = true) ∧
    (∀ (env : FetchEnv) (nr : PyVal), env.fetch_raises = true →
      (get_message_envelope env nr).envelope = none) ∧
    (∀ (env : FetchEnv) (nr : PyVal) (b : Bool),
      get_message_envelope { env with logout_raises := b } nr =
        get_message_envelope env nr) ∧
    (∀ (cfg : Config) (ev : LoopEvent) (r : PyVal), ev.check = .ok r →
      (idle_loop cfg ev).result = .ok) := by
  refine ⟨?_, ?_, ?_, ?_⟩
  · intro env nr hc
    simp only [get_message_envelope, hc, Bool.not_true, Bool.false_eq_true,
      if_false]
    split
    · rfl
    · split
      · rfl
      · split <;> rfl
  · intro env nr hf
    by_cases hc : env.connect_ok <;>
      simp [get_message_envelope, hc, hf]
  · intro env nr b
    cases env
    rfl
  · exact fun cfg ev r h => idle_loop_result_ok cfg ev r h

theorem C6_fetch_contained_witness :
    (get_message_envelope failingFetchEnv (.int 5)).logout_attempted = true ∧
    (get_message_envelope failingFetchEnv (.int 5)).envelope = none :=
  ⟨C6_fetch_contained.1 failingFetchEnv (.int 5) rfl,
    C6_fetch_contained.2.1 failingFetchEnv (.int 5) rfl⟩

/-- C7: a failure raised by the notification callback
(`trigger_new_message_command`) is caught inside `__idle_loop`: the check
cycle still completes normally (it does not abort the IDLE loop), and the
following counter update still resets the consecutive-error counter to
zero, so dispatch failures never touch the error budget. -/
theorem C7_dispatch_contained :
    ∀ (cfg : Config) (s : WState) (e : InnerEvent) (rest : List InnerEvent)
      (r : PyVal),
      s.thread_stopped = false →
      ¬(0 < cfg.SECONDS_TO_RECONNECT_AFTER ∧
        (cfg.SECONDS_TO_RECONNECT_AFTER : Int) <
          e.now - (s.connected_at.getD 0)) →
      e.loopEvent.check = .ok r →
      e.loopEvent.callback_raises = true →
      (idle_loop cfg e.loopEvent).result = .ok ∧
      idle_client_loop cfg s (e :: rest) =
        idle_client_loop cfg { s with imap_error_count := 0 } rest := by
  intro cfg s e rest r hstop hage hcheck _hcb
  have hok := idle_loop_result_ok cfg e.loopEvent r hcheck
  exact ⟨hok, by simp [idle_client_loop, hstop, hage, hok]⟩

theorem C7_dispatch_contained_witness :
    (idle_loop defaultConfig dispatchFailEvent.loopEvent).result = .ok ∧
    idle_client_loop defaultConfig stateWithErrors [dispatchFailEvent] =
      idle_client_loop defaultConfig
        { stateWithErrors with imap_error_count := 0 } [] :=
  C7_dispatch_contained defaultConfig stateWithErrors dispatchFailEvent []
    (embedPairs [(.int 42, EXISTS), (.int 1, RECENT)]) rfl (by decide)
    rfl rfl

/-- C8: when the primary session's age exceeds the configured reconnection
threshold, the worker leaves the inner IDLE loop at once (`__idle_client`
returns normally) and the outer loop proceeds directly to establishing a
new session, with the error counter unchanged, no backoff sleep, and no
error exit — even though no error occurred and no notification was
pending. -/
theorem C8_forced_reconnect :
    ∀ (cfg : Config) (s : WState) (e : OuterEvent) (ie : InnerEvent)
      (irest : List InnerEvent) (rest : List OuterEvent),
      s.thread_stopped = false →
      e.connect_ok = true →
      e.client.idle_raises = false →
      e.client.inner = ie :: irest →
      0 < cfg.SECONDS_TO_RECONNECT_AFTER →
      (cfg.SECONDS_TO_RECONNECT_AFTER : Int) < ie.now - e.client.idle_time →
      idle_client cfg s e.client =
        .ok { s with connected_at := some e.client.idle_time } ∧
      idle cfg s (e :: rest) =
        idle cfg { s with connected_at := some e.client.idle_time } rest := by
  intro cfg s e ie irest rest hstop hconn hraise hinner hpos hage
  have hclient : idle_client cfg s e.client =
      .ok { s with connected_at := some e.client.idle_time } := by
    simp only [idle_client, hstop, hraise, hinner, Bool.false_eq_true,
      if_false, idle_client_loop, Option.getD_some]
    rw [if_pos ⟨hpos, hage⟩]
  refine ⟨hclient, ?_⟩
  simp only [idle, hstop, hconn, hclient, Bool.false_eq_true, if_false,
    if_true]

theorem C8_forced_reconnect_witness :
    idle_client defaultConfig initialState reconOuterEvent.client =
      .ok { initialState with connected_at := some 0 } ∧
    idle defaultConfig initialState [reconOuterEvent] =
      idle defaultConfig { initialState with connected_at := some 0 } [] :=
  C8_forced_reconnect defaultConfig initialState reconOuterEvent
    reconInnerEvent [] [] rfl rfl rfl rfl (by decide) (by decide)
